import Mathlib

namespace Crewmf

/-! Shallow embedding of the Crewmf mutual-fund analysis service:
the orchestrator in `main.py` (FastAPI endpoints and the
`MutualFundAnalyzer` agent methods) and the report-splitting logic of the
Streamlit client in `main_app.py`.  The external completion API and the
HTTP transport are modelled by an oracle mapping each outgoing prompt to
an `ApiOutcome`. -/

/-- JSON values, modelling the decoded payload of `await response.json()`. -/
inductive Json where
  | null
  | str (s : String)
  | num (n : Int)
  | arr (elems : List Json)
  | obj (fields : List (String × Json))

/-- Dictionary lookup `j[k]`: first binding of the key, as in a Python dict. -/
def Json.get? : Json → String → Option Json
  | .obj fields, k => fields.lookup k
  | _, _ => none

/-- Array indexing `j[i]`. -/
def Json.idx? : Json → Nat → Option Json
  | .arr elems, i => elems.get? i
  | _, _ => none

/-- A JSON value viewed as a string, when it is one. -/
def Json.asStr? : Json → Option String
  | .str s => some s
  | _ => none

/-- One escaped character of a Python string repr under quote `q`:
the backslash, the quote character, and the common control characters
are escaped, every other character is kept as-is. -/
def pyEscapeChar (q c : Char) : String :=
  if c = '\\' then "\\\\"
  else if c = q then "\\" ++ String.mk [q]
  else if c = '\n' then "\\n"
  else if c = '\r' then "\\r"
  else if c = '\t' then "\\t"
  else String.mk [c]

/-- Python repr() of a string: single quotes, switching to double quotes
when the text holds a single quote but no double quote, with the common
escapes; the rarer control-character escapes of CPython are outside the
model. -/
def pyStrRepr (s : String) : String :=
  let q : Char := if s.data.contains '\x27' && ! s.data.contains '"' then '"' else '\x27'
  String.mk [q] ++ String.join (s.data.map (pyEscapeChar q)) ++ String.mk [q]

mutual

/-- Python repr() of a decoded-JSON value: None for null, decimal for
integers, quoted-and-escaped strings, bracketed lists and braced dicts of
the reprs of their members. -/
def pyRepr : Json → String
  | .null => "None"
  | .num n => toString n
  | .str s => pyStrRepr s
  | .arr xs => "[" ++ pyReprList xs ++ "]"
  | .obj kvs => "\x7b" ++ pyReprFields kvs ++ "\x7d"

/-- Comma-separated reprs of list elements. -/
def pyReprList : List Json → String
  | [] => ""
  | [x] => pyRepr x
  | x :: xs => pyRepr x ++ ", " ++ pyReprList xs

/-- Comma-separated repr(key): repr(value) pairs of dict fields. -/
def pyReprFields : List (String × Json) → String
  | [] => ""
  | [(k, v)] => pyStrRepr k ++ ": " ++ pyRepr v
  | (k, v) :: kvs => pyStrRepr k ++ ": " ++ pyRepr v ++ ", " ++ pyReprFields kvs

end

/-- Python str() of a decoded-JSON value: a string is itself, every other
value is its repr.  This is the conversion an f-string interpolation
applies to a non-string value. -/
def pyStr : Json → String
  | .str s => s
  | v => pyRepr v

/-- The payload access chain from main.py line 108,
result.choices[0].message.content: the content value at that path,
whatever its type; `none` models the access raising (KeyError /
IndexError / TypeError), which the generic handler catches. -/
def extract_content (j : Json) : Option Json :=
  ((j.get? "choices").bind (fun c => c.idx? 0)).bind
    (fun c0 => (c0.get? "message").bind (fun m => m.get? "content"))

/-- Body of an HTTP response from the completion endpoint: `json` when
`await response.json()` succeeds, `text` when the body does not decode. -/
inductive Body where
  | json (j : Json)
  | text (t : String)

/-- The behaviour of the external world on one remote call: an HTTP
response with a status code and body, a timeout of the session, or a
transport-level exception. -/
inductive ApiOutcome where
  | response (status : Nat) (body : Body)
  | timeout
  | transportError

/-- The network model: what outcome each outgoing prompt meets. -/
def Oracle : Type := String → ApiOutcome

/-- Placeholder returned on `asyncio.TimeoutError` (main.py line 115). -/
def timeout_message : String :=
  "Request timeout. Please try again with a shorter fund name."

/-- Placeholder returned by the generic `except Exception` handler
(main.py line 118). -/
def unavailable_message : String :=
  "Service temporarily unavailable. Please try again later."

/-- Placeholder returned on a non-200 HTTP status (main.py line 112). -/
def api_error_message (status : Nat) : String :=
  "Error calling Perplexity API: " ++ toString status ++ ". Please try again."

/-- Exceptions that can escape the body of the `try` block in
`call_perplexity_api`. -/
inductive PyExc where
  | timeoutError
  | transportExc
  | extractionError
  | decodeError
deriving DecidableEq

/-- The body of the `try` block of `call_perplexity_api` (main.py lines
101-112): posts the prompt, and on a 200 response yields the first-choice
content value as-is, of whatever type (raising if the payload lacks that
access path or the body does not decode as JSON); on a non-200 response
returns the status placeholder string. -/
def api_attempt : ApiOutcome → Except PyExc Json
  | .timeout => .error .timeoutError
  | .transportError => .error .transportExc
  | .response status (.json j) =>
      if status = 200 then
        match extract_content j with
        | some content => .ok content
        | none => .error .extractionError
      else .ok (Json.str (api_error_message status))
  | .response status (.text _) =>
      if status = 200 then .error .decodeError
      else .ok (Json.str (api_error_message status))

/-- `MutualFundAnalyzer.call_perplexity_api` (main.py lines 80-118) at
the value level: the `try` body with its two handlers, `except
asyncio.TimeoutError` first and the generic `except Exception` second.
The returned Python object is the extracted content value — not
necessarily a string — or a placeholder string.  The analyzer object and
the unused `role` parameter are elided; the network is the oracle. -/
def call_perplexity_api_value (oracle : Oracle) (prompt : String) : Json :=
  match api_attempt (oracle prompt) with
  | .ok v => v
  | .error .timeoutError => Json.str timeout_message
  | .error _ => Json.str unavailable_message

/-- The string-level view of `call_perplexity_api` used by the
orchestration model: identical to the returned value whenever that value
is a string (every placeholder and every string content); a non-string
content value is coerced by `pyStr`, the str() conversion the synthesis
f-string applies to it downstream. -/
def call_perplexity_api (oracle : Oracle) (prompt : String) : String :=
  pyStr (call_perplexity_api_value oracle prompt)

/-- The prompt occurs literally inside the string. -/
def occursIn (pat s : String) : Prop := ∃ a b, s = a ++ pat ++ b

/-- C5: every failure kind of the remote call maps to its specific
placeholder string instead of raising: a timeout yields the timeout
placeholder, a non-2xx response yields the placeholder embedding the
numeric status code, and a transport-level exception yields the generic
temporarily-unavailable placeholder. -/
theorem C5_failure_placeholders (oracle : Oracle) (prompt : String) :
    (oracle prompt = ApiOutcome.timeout →
      call_perplexity_api oracle prompt = timeout_message) ∧
    (∀ st body, oracle prompt = ApiOutcome.response st body →
      ¬ (200 ≤ st ∧ st ≤ 299) →
      call_perplexity_api oracle prompt = api_error_message st ∧
      occursIn (toString st) (call_perplexity_api oracle prompt)) ∧
    (oracle prompt = ApiOutcome.transportError →
      call_perplexity_api oracle prompt = unavailable_message) := by
  refine ⟨?_, ?_, ?_⟩
  · intro h
    simp [call_perplexity_api, call_perplexity_api_value, h, api_attempt, pyStr]
  · intro st body h hst
    have h200 : st ≠ 200 := by
      intro he
      exact hst (by omega)
    have hcall : call_perplexity_api oracle prompt = api_error_message st := by
      cases body with
      | json j =>
          simp [call_perplexity_api, call_perplexity_api_value, h,
            api_attempt, h200, pyStr]
      | text t =>
          simp [call_perplexity_api, call_perplexity_api_value, h,
            api_attempt, h200, pyStr]
    refine ⟨hcall, ?_⟩
    rw [hcall]
    exact ⟨"Error calling Perplexity API: ", ". Please try again.", rfl⟩
  · intro h
    simp [call_perplexity_api, call_perplexity_api_value, h, api_attempt, pyStr]

/-- Witness for C5 at concrete outcomes. -/
theorem C5_failure_placeholders_witness :
    call_perplexity_api (fun _ => ApiOutcome.timeout) "p" = timeout_message ∧
    call_perplexity_api (fun _ => ApiOutcome.response 503 (Body.text "busy")) "p" =
      api_error_message 503 ∧
    call_perplexity_api (fun _ => ApiOutcome.transportError) "p" =
      unavailable_message :=
  ⟨(C5_failure_placeholders (fun _ => ApiOutcome.timeout) "p").1 rfl,
   ((C5_failure_placeholders (fun _ => ApiOutcome.response 503 (Body.text "busy"))
      "p").2.1 503 (Body.text "busy") rfl (by decide)).1,
   (C5_failure_placeholders (fun _ => ApiOutcome.transportError) "p").2.2 rfl⟩

/-- A well-formed completion payload whose first choice content is
"Report text". -/
def good_payload : Json :=
  Json.obj [("choices", Json.arr
    [Json.obj [("message", Json.obj [("content", Json.str "Report text")])]])]

/-- C6 counterexample: a 201 response (a 2xx success) whose payload
carries the completion text "Report text" is not returned verbatim; the
code treats only status 200 as success and returns the status placeholder
for 201. -/
theorem C6_counterexample :
    (200 ≤ 201 ∧ 201 ≤ 299) ∧
    extract_content good_payload = some (Json.str "Report text") ∧
    call_perplexity_api
        (fun _ => ApiOutcome.response 201 (Body.json good_payload)) "p" ≠
      "Report text" ∧
    call_perplexity_api
        (fun _ => ApiOutcome.response 201 (Body.json good_payload)) "p" =
      api_error_message 201 := by
  refine ⟨by omega, rfl, by decide, by decide⟩

/-- C6 amended: for every 200 response whose JSON payload carries the
first-choice message content as a string, the remote call returns that
content verbatim, with no post-processing and no truncation. -/
theorem C6_success_verbatim (oracle : Oracle) (prompt : String)
    (j : Json) (c : String)
    (hres : oracle prompt = ApiOutcome.response 200 (Body.json j))
    (hext : extract_content j = some (Json.str c)) :
    call_perplexity_api oracle prompt = c := by
  simp [call_perplexity_api, call_perplexity_api_value, api_attempt,
    hres, hext, pyStr]

/-- Witness for the amended C6 at the concrete well-formed payload. -/
theorem C6_success_verbatim_witness :
    call_perplexity_api
        (fun _ => ApiOutcome.response 200 (Body.json good_payload)) "p" =
      "Report text" :=
  C6_success_verbatim (fun _ => ApiOutcome.response 200 (Body.json good_payload))
    "p" good_payload "Report text" rfl rfl

/-- A well-formed completion payload whose first-choice message content
is present but is the number 42 rather than a string. -/
def nonstring_payload : Json :=
  Json.obj [("choices", Json.arr
    [Json.obj [("message", Json.obj [("content", Json.num 42)])]])]

/-- C10 counterexample: a 200 response whose payload carries the
choices/message/content path with the non-string value 42.  The program
returns that value as-is — not a string and not the generic placeholder —
so the remote call does not return a string for every response shape. -/
theorem C10_counterexample :
    extract_content nonstring_payload = some (Json.num 42) ∧
    call_perplexity_api_value
        (fun _ => ApiOutcome.response 200 (Body.json nonstring_payload)) "p" =
      Json.num 42 ∧
    (Json.num 42).asStr? = none ∧
    call_perplexity_api_value
        (fun _ => ApiOutcome.response 200 (Body.json nonstring_payload)) "p" ≠
      Json.str unavailable_message := by
  refine ⟨rfl, rfl, rfl, ?_⟩
  intro h
  have h42 : Json.num 42 = Json.str unavailable_message :=
    (rfl : call_perplexity_api_value
      (fun _ => ApiOutcome.response 200 (Body.json nonstring_payload)) "p" =
        Json.num 42).symm.trans h
  exact Json.noConfusion h42

/-- C10 amended: the remote call never raises to its caller: every
outcome yields a value.  A 200 response whose JSON payload lacks the
choices/message/content access path (the access would raise a key, index
or type error), or whose body does not decode as JSON, is converted to
the generic temporarily-unavailable placeholder instead of propagating
the error; a content value present at that path is returned as-is, even
when it is not a string. -/
theorem C10_total_no_raise (oracle : Oracle) (prompt : String) :
    (∃ v : Json, call_perplexity_api_value oracle prompt = v) ∧
    (∀ j, oracle prompt = ApiOutcome.response 200 (Body.json j) →
      extract_content j = none →
      call_perplexity_api_value oracle prompt = Json.str unavailable_message) ∧
    (∀ t, oracle prompt = ApiOutcome.response 200 (Body.text t) →
      call_perplexity_api_value oracle prompt = Json.str unavailable_message) ∧
    (∀ j v, oracle prompt = ApiOutcome.response 200 (Body.json j) →
      extract_content j = some v →
      call_perplexity_api_value oracle prompt = v) := by
  refine ⟨⟨call_perplexity_api_value oracle prompt, rfl⟩, ?_, ?_, ?_⟩
  · intro j hres hext
    simp [call_perplexity_api_value, api_attempt, hres, hext]
  · intro t hres
    simp [call_perplexity_api_value, api_attempt, hres]
  · intro j v hres hext
    simp [call_perplexity_api_value, api_attempt, hres, hext]

/-- Witness for the amended C10 at a 200 response whose payload is an
empty object, where the access path raises and the generic placeholder is
substituted. -/
theorem C10_total_no_raise_witness :
    call_perplexity_api_value
        (fun _ => ApiOutcome.response 200 (Body.json (Json.obj []))) "p" =
      Json.str unavailable_message :=
  (C10_total_no_raise (fun _ => ApiOutcome.response 200 (Body.json (Json.obj [])))
    "p").2.1 (Json.obj []) rfl rfl

/-- The whitespace class of Python str.strip() / str.isspace(): ASCII
whitespace including the vertical tab, form feed and the file/group/
record/unit separators, plus the next line, no-break space and the
Unicode space characters. -/
def pyIsSpace (c : Char) : Bool :=
  c = ' ' || c = '\t' || c = '\n' || c = '\x0b' || c = '\x0c' || c = '\r' ||
  c = '\x1c' || c = '\x1d' || c = '\x1e' || c = '\x1f' || c = '\x85' ||
  c = '\xa0' || c = '\u1680' || (0x2000 ≤ c.val && c.val ≤ 0x200a) ||
  c = '\u2028' || c = '\u2029' || c = '\u202f' || c = '\u205f' || c = '\u3000'

/-- Python str.strip(): remove leading and trailing whitespace. -/
def pyStrip (s : String) : String :=
  String.mk (((s.data.dropWhile pyIsSpace).reverse.dropWhile
    pyIsSpace).reverse)

/-- Python str.split(sep) over character lists: scan left to right,
splitting at each leftmost non-overlapping occurrence of the separator;
`acc` holds the piece being built, reversed. -/
def pySplitAux (sep : List Char) (acc : List Char) : List Char → List (List Char)
  | [] => [acc.reverse]
  | c :: rest =>
      if sep.isPrefixOf (c :: rest) then
        acc.reverse :: pySplitAux sep [] (rest.drop (sep.length - 1))
      else
        pySplitAux sep (c :: acc) rest
termination_by s => s.length
decreasing_by
  all_goals simp [List.length_drop]
  omega

/-- Python str.split(sep) on strings, for a fixed nonempty separator. -/
def py_split (s sep : String) : List String :=
  (pySplitAux sep.data [] s.data).map String.mk

/-- The separator occurs somewhere in the character list. -/
def containsSeq (pat : List Char) : List Char → Bool
  | [] => pat.isEmpty
  | c :: rest => pat.isPrefixOf (c :: rest) || containsSeq pat rest

/-- Two strings with the same character data are equal. -/
theorem string_eq_of_data (a b : String) (h : a.data = b.data) : a = b := by
  cases a
  cases b
  exact congrArg String.mk h

/-- `containsSeq` detects exactly the occurrences of `pat` as an infix. -/
theorem containsSeq_iff (pat : List Char) :
    ∀ s, containsSeq pat s = true ↔ ∃ t u, s = t ++ pat ++ u := by
  intro s
  induction s with
  | nil =>
      simp only [containsSeq, List.isEmpty_iff]
      constructor
      · rintro rfl
        exact ⟨[], [], rfl⟩
      · rintro ⟨t, u, h⟩
        rcases List.append_eq_nil.mp h.symm with ⟨h1, -⟩
        exact (List.append_eq_nil.mp h1).2
  | cons c rest ih =>
      simp only [containsSeq, Bool.or_eq_true]
      constructor
      · rintro (hp | hc)
        · rcases (List.isPrefixOf_iff_prefix.mp hp) with ⟨u, hu⟩
          exact ⟨[], u, by simp [hu.symm]⟩
        · rcases ih.mp hc with ⟨t, u, h⟩
          exact ⟨c :: t, u, by simp [h]⟩
      · rintro ⟨t, u, h⟩
        cases t with
        | nil =>
            left
            exact List.isPrefixOf_iff_prefix.mpr ⟨u, by simpa using h.symm⟩
        | cons x t2 =>
            right
            apply ih.mpr
            refine ⟨t2, u, ?_⟩
            simpa using congrArg List.tail h

/-- String-level occurrence agrees with the character-level scanner. -/
theorem occursIn_iff_containsSeq (pat s : String) :
    occursIn pat s ↔ containsSeq pat.data s.data = true := by
  constructor
  · rintro ⟨a, b, rfl⟩
    rw [containsSeq_iff]
    exact ⟨a.data, b.data, by simp [String.data_append]⟩
  · intro h
    rcases (containsSeq_iff pat.data s.data).mp h with ⟨t, u, hd⟩
    refine ⟨String.mk t, String.mk u, ?_⟩
    apply string_eq_of_data
    simpa [String.data_append] using hd

/-- Splitting a list in which the separator never occurs yields the
single piece `acc.reverse ++ s`. -/
theorem pySplitAux_eq_single (sep : List Char) :
    ∀ (acc s : List Char), containsSeq sep s = false →
      pySplitAux sep acc s = [acc.reverse ++ s]
  | acc, [], h => by
      simp [pySplitAux]
  | acc, c :: rest, h => by
      simp only [containsSeq, Bool.or_eq_false_iff] at h
      rw [pySplitAux]
      simp only [h.1, Bool.false_eq_true, if_false]
      rw [pySplitAux_eq_single sep (c :: acc) rest h.2]
      simp
termination_by _ s => s.length

/-- `pySplitAux` always yields at least one piece. -/
theorem pySplitAux_ne_nil (sep : List Char) :
    ∀ (acc s : List Char), pySplitAux sep acc s ≠ []
  | acc, [] => by simp [pySplitAux]
  | acc, c :: rest => by
      by_cases hp : sep.isPrefixOf (c :: rest)
      · simp [pySplitAux, hp]
      · rw [pySplitAux]
        simp only [hp, Bool.false_eq_true, if_false]
        exact pySplitAux_ne_nil sep (c :: acc) rest
termination_by _ s => s.length

/-- If the separator is nonempty and occurs, the split has at least two
pieces. -/
theorem pySplitAux_length_ge_two (sep : List Char) (hsep : sep ≠ []) :
    ∀ (acc s : List Char), containsSeq sep s = true →
      2 ≤ (pySplitAux sep acc s).length
  | acc, [], h => by
      simp only [containsSeq, List.isEmpty_iff] at h
      exact absurd h hsep
  | acc, c :: rest, h => by
      by_cases hp : sep.isPrefixOf (c :: rest)
      · rw [pySplitAux]
        simp only [hp, if_true, List.length_cons]
        have hne := pySplitAux_ne_nil sep [] (rest.drop (sep.length - 1))
        have := List.length_pos.mpr hne
        omega
      · simp only [containsSeq, Bool.or_eq_true] at h
        rcases h with h | h
        · exact absurd h hp
        · rw [pySplitAux]
          simp only [hp, Bool.false_eq_true, if_false]
          exact pySplitAux_length_ge_two sep hsep (c :: acc) rest h
termination_by _ s _ => s.length

/-- Python section.split(backslash-n, 1): split on the first occurrence
of one character, yielding one or two pieces. -/
def splitOnceAux (c : Char) (acc : List Char) : List Char → List String
  | [] => [String.mk acc.reverse]
  | x :: rest =>
      if x = c then [String.mk acc.reverse, String.mk rest]
      else splitOnceAux c (x :: acc) rest

/-- Python s.split(c, 1) on a string. -/
def py_split_once (s : String) (c : Char) : List String :=
  splitOnceAux c [] s.data

/-- The loop of display_final_report over sections[1:] (main_app.py lines
156-163): keep each non-blank section that has at least two lines, as a
(title, content) pair with both sides stripped. -/
def sectionize : List String → List (String × String)
  | [] => []
  | sec :: rest =>
      let tl := sectionize rest
      if pyStrip sec = "" then tl
      else
        match py_split_once sec '\n' with
        | [t, cont] => (pyStrip t, pyStrip cont) :: tl
        | _ => tl

/-- What the client renders for the final report: an error notice for a
blank report, the whole text as one block, or a preamble plus titled
sections shown as tabs. -/
inductive Rendering where
  | noReport
  | single (text : String)
  | tabbed (preamble : Option String) (sections : List (String × String))
deriving DecidableEq

/-- `display_final_report` (main_app.py lines 136-173).  A blank report
shows an error notice.  Otherwise the text is split on the marker; with
more than one piece the head is shown first (when non-blank) and the
remaining pieces become titled tabs; with a single piece the whole text
is rendered as one block.  The markdown cleanup applied by
format_markdown_content before st.markdown is widget styling, outside the
model, so `single` carries the full report text handed to that branch. -/
def display_final_report (report_content : String) : Rendering :=
  if pyStrip report_content = "" then .noReport
  else
    let sections := py_split report_content "\n## "
    if 1 < sections.length then
      .tabbed
        (match sections.head? with
          | some pre => if pyStrip pre = "" then none else some pre
          | none => none)
        (sectionize (sections.drop 1))
    else .single report_content

/-- C7 counterexample: the empty final-report string contains no marker,
yet the display operation renders an error notice instead of the whole
text as a single block. -/
theorem C7_counterexample :
    ¬ occursIn "\n## " "" ∧
    display_final_report "" = Rendering.noReport ∧
    display_final_report "" ≠ Rendering.single "" := by
  refine ⟨?_, by decide, by decide⟩
  intro h
  rw [occursIn_iff_containsSeq] at h
  exact absurd h (by decide)

/-- C7 amended: for every final-report string that is non-blank after
trimming, the display operation splits it on the literal marker into
titled sections for tabbed display when the marker occurs, renders the
whole text as a single block when the marker does not occur, and never
raises (it is a total function into `Rendering`). -/
theorem C7_display_split (rc : String) (hnb : pyStrip rc ≠ "") :
    (¬ occursIn "\n## " rc → display_final_report rc = Rendering.single rc) ∧
    (occursIn "\n## " rc →
      2 ≤ (py_split rc "\n## ").length ∧
      display_final_report rc =
        Rendering.tabbed
          (match (py_split rc "\n## ").head? with
            | some pre => if pyStrip pre = "" then none else some pre
            | none => none)
          (sectionize ((py_split rc "\n## ").drop 1))) := by
  constructor
  · intro hno
    rw [occursIn_iff_containsSeq] at hno
    have hfalse : containsSeq ("\n## ".data) rc.data = false := by
      cases hcs : containsSeq ("\n## ".data) rc.data with
      | false => rfl
      | true => exact absurd hcs hno
    have hsplit : py_split rc "\n## " = [rc] := by
      unfold py_split
      rw [pySplitAux_eq_single ("\n## ".data) [] rc.data hfalse]
      simp [string_eq_of_data (String.mk rc.data) rc rfl]
    simp [display_final_report, hnb, hsplit]
  · intro hocc
    rw [occursIn_iff_containsSeq] at hocc
    have hlen : 2 ≤ (py_split rc "\n## ").length := by
      unfold py_split
      rw [List.length_map]
      exact pySplitAux_length_ge_two ("\n## ".data) (by decide) [] rc.data hocc
    refine ⟨hlen, ?_⟩
    simp only [display_final_report, hnb, if_false]
    have h1 : 1 < (py_split rc "\n## ").length := hlen
    simp [h1]

/-- Witness for the amended C7 at a concrete marker-free report. -/
theorem C7_display_split_witness :
    display_final_report "Executive summary only." =
      Rendering.single "Executive summary only." := by
  refine (C7_display_split "Executive summary only." (by decide)).1 ?_
  intro h
  rw [occursIn_iff_containsSeq] at h
  exact absurd h (by decide)

/-- The prompt of `MutualFundAnalyzer.analyze_mutual_fund` (main.py lines
122-135), with the fund name interpolated. -/
def fund_analysis_prompt (fund_name : String) : String :=
  "\n        As an expert Mutual Fund Analyst specializing in Indian mutual funds, provide a comprehensive analysis of "
    ++ fund_name ++
  ".\n\n        Please analyze:\n        1. Fund Overview (AUM, expense ratio, fund manager, investment style)\n        2. Historical Performance (1Y, 3Y, 5Y returns vs benchmark and category)\n        3. Portfolio Analysis (top holdings, sector allocation, market cap distribution)\n        4. Risk Metrics (beta, standard deviation, Sharpe ratio)\n        5. Fund Manager track record\n        6. Strengths and weaknesses\n        7. Suitability for different investor profiles\n\n        Provide specific data points and numbers wherever possible. Focus on recent data from the last 12 months.\n        "

/-- The prompt of `MutualFundAnalyzer.analyze_sentiment` (main.py lines
141-159). -/
def sentiment_analysis_prompt (fund_name : String) : String :=
  "\n        As a Financial Sentiment Analysis expert, analyze the current market sentiment around "
    ++ fund_name ++
  ".\n\n        Research and analyze:\n        1. Recent news articles and press releases (last 4 weeks)\n        2. Expert commentary and analyst recommendations\n        3. Social media sentiment from financial platforms\n        4. Any significant events affecting the fund or its holdings\n        5. Investor sentiment trends\n        6. Media coverage tone (positive/neutral/negative)\n\n        Provide:\n        - Overall sentiment score and direction\n        - Key positive and negative catalysts\n        - Recent events impact\n        - Forward-looking sentiment indicators\n\n        Focus on credible financial news sources and expert opinions.\n        "

/-- The prompt of `MutualFundAnalyzer.analyze_macroeconomic` (main.py
lines 165-185). -/
def macro_analysis_prompt (fund_name : String) : String :=
  "\n        As a Macroeconomic Analysis expert, analyze how current macroeconomic conditions impact "
    ++ fund_name ++
  ".\n\n        Analyze current economic indicators:\n        1. India\x27s GDP growth trends and forecasts\n        2. RBI monetary policy and interest rate outlook\n        3. Inflation trends (CPI, WPI) and impact\n        4. Global economic factors affecting Indian markets\n        5. Currency trends (INR/USD) and FII flows\n        6. Government policies affecting mutual funds/capital markets\n        7. Sectoral economic trends relevant to the fund\x27s holdings\n\n        Provide:\n        - Current economic environment summary\n        - Key macroeconomic risks and opportunities\n        - Specific implications for the fund\x27s performance\n        - Forward-looking economic scenarios\n        - Policy changes that could impact the fund\n\n        Focus on recent data and RBI/government announcements.\n        "

/-- Pieces of the synthesis prompt of
`MutualFundAnalyzer.compile_final_report` (main.py lines 191-234), in
source order around the four interpolation sites. -/
def compile_prompt_p1 : String :=
  "\n        As an expert Research Report Writer, compile a comprehensive investment research report for "

/-- Piece between the fund name and the fund analysis. -/
def compile_prompt_p2 : String :=
  " using the following analyses:\n\n        FUND ANALYSIS:\n        "

/-- Piece between the fund analysis and the sentiment analysis. -/
def compile_prompt_p3 : String :=
  "\n\n        SENTIMENT ANALYSIS:\n        "

/-- Piece between the sentiment analysis and the macro analysis. -/
def compile_prompt_p4 : String :=
  "\n\n        MACROECONOMIC ANALYSIS:\n        "

/-- Piece between the macro analysis and the second fund-name site. -/
def compile_prompt_p5 : String :=
  "\n\n        Create a professional research report with the following structure:\n\n        # Investment Research Report: "

/-- The fixed report template after the second fund-name site. -/
def compile_prompt_p6 : String :=
  "\n\n        ## Executive Summary\n        - Key findings and investment recommendation\n        - Target investor profile\n        - Risk rating\n\n        ## Fund Overview\n        - Basic fund details and strategy\n\n        ## Performance Analysis\n        - Historical performance summary\n        - Risk-adjusted returns\n\n        ## Current Market Environment\n        - Macroeconomic backdrop\n        - Market sentiment\n\n        ## Investment Thesis\n        - Strengths and opportunities\n        - Risks and challenges\n\n        ## Final Recommendation\n        - Investment rating (BUY/HOLD/SELL)\n        - Rationale for recommendation\n        - Suitable investor profile\n        - Investment horizon\n\n        Use professional investment research language and provide specific, actionable insights.\n        "

/-- The full synthesis prompt: embeds the fund name (twice) and the three
prior analysis texts. -/
def compile_prompt
    (fund_name fund_analysis sentiment_analysis macro_analysis : String) :
    String :=
  compile_prompt_p1 ++ fund_name ++ compile_prompt_p2 ++ fund_analysis ++
  compile_prompt_p3 ++ sentiment_analysis ++ compile_prompt_p4 ++
  macro_analysis ++ compile_prompt_p5 ++ fund_name ++ compile_prompt_p6

/-- `MutualFundAnalyzer.analyze_mutual_fund` (main.py lines 120-137): the
fund-analysis agent. -/
def MutualFundAnalyzer.analyze_mutual_fund (oracle : Oracle)
    (fund_name : String) : String :=
  call_perplexity_api oracle (fund_analysis_prompt fund_name)

/-- `MutualFundAnalyzer.analyze_sentiment` (main.py lines 139-161). -/
def MutualFundAnalyzer.analyze_sentiment (oracle : Oracle)
    (fund_name : String) : String :=
  call_perplexity_api oracle (sentiment_analysis_prompt fund_name)

/-- `MutualFundAnalyzer.analyze_macroeconomic` (main.py lines 163-187). -/
def MutualFundAnalyzer.analyze_macroeconomic (oracle : Oracle)
    (fund_name : String) : String :=
  call_perplexity_api oracle (macro_analysis_prompt fund_name)

/-- `MutualFundAnalyzer.compile_final_report` (main.py lines 189-236):
the synthesis agent, one remote call on the synthesis prompt. -/
def MutualFundAnalyzer.compile_final_report (oracle : Oracle)
    (fund_name fund_analysis sentiment_analysis macro_analysis : String) :
    String :=
  call_perplexity_api oracle
    (compile_prompt fund_name fund_analysis sentiment_analysis macro_analysis)

/-- A point in time as held by a Python `datetime` object (date plus time
of day with microseconds; the endpoints use naive local time). -/
structure Datetime where
  year : Nat
  month : Nat
  day : Nat
  hour : Nat
  minute : Nat
  second : Nat
  microsecond : Nat
deriving DecidableEq

/-- The range invariants Python `datetime` guarantees for its fields;
`datetime.now()` always satisfies them. -/
def Datetime.valid (d : Datetime) : Prop :=
  1 ≤ d.year ∧ d.year ≤ 9999 ∧ 1 ≤ d.month ∧ d.month ≤ 12 ∧
  1 ≤ d.day ∧ d.day ≤ 31 ∧ d.hour ≤ 23 ∧ d.minute ≤ 59 ∧
  d.second ≤ 59 ∧ d.microsecond ≤ 999999

instance (d : Datetime) : Decidable d.valid := by
  unfold Datetime.valid
  infer_instance

/-- Decimal digit character for `n mod 10`. -/
def digitChar (n : Nat) : Char := Char.ofNat (48 + n % 10)

/-- Zero-padded two-digit decimal rendering, faithful for `n ≤ 99`. -/
def pad2 (n : Nat) : String := String.mk [digitChar (n / 10), digitChar n]

/-- Zero-padded four-digit decimal rendering, faithful for `n ≤ 9999`. -/
def pad4 (n : Nat) : String :=
  String.mk [digitChar (n / 1000), digitChar (n / 100), digitChar (n / 10),
    digitChar n]

/-- Zero-padded six-digit decimal rendering, faithful for `n ≤ 999999`. -/
def pad6 (n : Nat) : String :=
  String.mk [digitChar (n / 100000), digitChar (n / 10000),
    digitChar (n / 1000), digitChar (n / 100), digitChar (n / 10), digitChar n]

/-- Python `datetime.isoformat()`: YYYY-MM-DDTHH:MM:SS, followed by
.ffffff exactly when the microsecond field is nonzero.  Faithful on valid
datetimes. -/
def Datetime.isoformat (d : Datetime) : String :=
  pad4 d.year ++ "-" ++ pad2 d.month ++ "-" ++ pad2 d.day ++ "T" ++
  pad2 d.hour ++ ":" ++ pad2 d.minute ++ ":" ++ pad2 d.second ++
  (if d.microsecond = 0 then "" else "." ++ pad6 d.microsecond)

/-- Checks an optional ISO-8601 fractional-seconds suffix: either nothing
or a dot followed by exactly six digits. -/
def fracCheck : List Char → Bool
  | [] => true
  | p :: u1 :: u2 :: u3 :: u4 :: u5 :: u6 :: [] =>
      p == '.' && [u1, u2, u3, u4, u5, u6].all Char.isDigit
  | _ => false

/-- Checks the ISO-8601 combined date-time shape
YYYY-MM-DDTHH:MM:SS with an optional fractional-seconds suffix. -/
def isoCheck : List Char → Bool
  | y1 :: y2 :: y3 :: y4 :: s1 :: m1 :: m2 :: s2 :: d1 :: d2 :: s3 ::
      h1 :: h2 :: s4 :: n1 :: n2 :: s5 :: x1 :: x2 :: rest =>
      [y1, y2, y3, y4, m1, m2, d1, d2, h1, h2, n1, n2, x1, x2].all
        Char.isDigit &&
      s1 == '-' && s2 == '-' && s3 == 'T' && s4 == ':' && s5 == ':' &&
      fracCheck rest
  | _ => false

/-- A string parses as an ISO-8601 combined date and time. -/
def isIso8601 (s : String) : Bool := isoCheck s.data

/-- Digit characters produced by `digitChar` are decimal digits. -/
theorem digitChar_isDigit (n : Nat) : (digitChar n).isDigit = true := by
  have key : ∀ m, m < 10 → (Char.ofNat (48 + m)).isDigit = true := by decide
  exact key (n % 10) (Nat.mod_lt n (by omega))

/-- Unfolding the character data of a constructed string. -/
theorem data_mk (l : List Char) : (String.mk l).data = l := rfl

/-- `isoformat` output always parses as ISO-8601. -/
theorem isoformat_isIso8601 (d : Datetime) : isIso8601 d.isoformat = true := by
  have hdash : ("-" : String).data = ['-'] := rfl
  have hcolon : (":" : String).data = [':'] := rfl
  have htee : ("T" : String).data = ['T'] := rfl
  have hdot : ("." : String).data = ['.'] := rfl
  have hempty : ("" : String).data = [] := rfl
  by_cases hu : d.microsecond = 0 <;>
    simp [isIso8601, Datetime.isoformat, hu, pad4, pad2, pad6,
      String.data_append, data_mk, hdash, hcolon, htee, hdot, hempty,
      isoCheck, fracCheck, digitChar_isDigit]

/-- The four remote-call roles of one analysis run. -/
inductive Slot where
  | fund
  | sentiment
  | macroeconomic
  | synthesis
deriving DecidableEq

/-- Events observable in one run of the analyze orchestration: a remote
call starting, and a remote call resolving to its result string. -/
inductive Event where
  | started (slot : Slot) (prompt : String)
  | resolved (slot : Slot) (result : String)
deriving DecidableEq

/-- Slot of the i-th task of the asyncio.gather fan-out (main.py lines
291-295, in source order). -/
def agentSlot : Fin 3 → Slot
  | ⟨0, _⟩ => .fund
  | ⟨1, _⟩ => .sentiment
  | ⟨2, _⟩ => .macroeconomic
  | ⟨n + 3, h⟩ => absurd h (by omega)

/-- Prompt of the i-th gathered task. -/
def agent_prompt (fund_name : String) : Fin 3 → String
  | ⟨0, _⟩ => fund_analysis_prompt fund_name
  | ⟨1, _⟩ => sentiment_analysis_prompt fund_name
  | ⟨2, _⟩ => macro_analysis_prompt fund_name
  | ⟨n + 3, h⟩ => absurd h (by omega)

/-- Result of the i-th gathered task. -/
def agent_result (oracle : Oracle) (fund_name : String) (i : Fin 3) : String :=
  call_perplexity_api oracle (agent_prompt fund_name i)

/-- One scheduling step of the fan-out: the i-th task starting or
resolving.  The event loop may interleave these in any order. -/
inductive GatherLabel where
  | taskStarted (i : Fin 3)
  | taskResolved (i : Fin 3)
deriving DecidableEq

/-- The event a scheduling step contributes to the trace. -/
def gather_event (oracle : Oracle) (fund_name : String) : GatherLabel → Event
  | .taskStarted i => .started (agentSlot i) (agent_prompt fund_name i)
  | .taskResolved i => .resolved (agentSlot i) (agent_result oracle fund_name i)

/-- A schedule in which every one of the three gathered tasks resolves,
as asyncio.gather guarantees before returning. -/
def coversResolutions (sched : List GatherLabel) : Prop :=
  ∀ i : Fin 3, GatherLabel.taskResolved i ∈ sched

instance (sched : List GatherLabel) : Decidable (coversResolutions sched) := by
  unfold coversResolutions
  infer_instance

/-- HTTP-level outcome of the POST /analyze endpoint: the success payload
(status text, fund name, analysis dict as an association list, ISO
timestamp), or an HTTPException with status code and detail. -/
inductive EndpointResult where
  | success (status : String) (fund_name : String)
      (analysis : List (String × String)) (timestamp : String)
  | httpError (statusCode : Nat) (detail : String)
deriving DecidableEq

/-- The POST /analyze endpoint `analyze_mutual_fund` (main.py lines
274-326): strip the submitted name, reject empty or too-short names with
a 400, otherwise gather the three agent calls, run the synthesis call on
their results, and return the fully populated response.  Returns the
HTTP-level result together with the trace of remote-call events; `sched`
is the interleaving the event loop chose for the fan-out part. -/
def analyze_mutual_fund (sched : List GatherLabel) (oracle : Oracle)
    (mutual_fund_name : String) (now : Datetime) :
    EndpointResult × List Event :=
  let fund_name := pyStrip mutual_fund_name
  if fund_name = "" then
    (.httpError 400 "Mutual fund name is required", [])
  else if fund_name.length < 3 then
    (.httpError 400 "Fund name too short. Please provide the complete fund name.",
     [])
  else
    let fund_analysis := MutualFundAnalyzer.analyze_mutual_fund oracle fund_name
    let sentiment_analysis := MutualFundAnalyzer.analyze_sentiment oracle fund_name
    let macro_analysis := MutualFundAnalyzer.analyze_macroeconomic oracle fund_name
    let final_report := MutualFundAnalyzer.compile_final_report oracle fund_name
      fund_analysis sentiment_analysis macro_analysis
    (.success "success" fund_name
      [("fund_analysis", fund_analysis),
       ("sentiment_analysis", sentiment_analysis),
       ("macroeconomic_analysis", macro_analysis),
       ("final_report", final_report)]
      now.isoformat,
     sched.map (gather_event oracle fund_name) ++
       [Event.started .synthesis
          (compile_prompt fund_name fund_analysis sentiment_analysis
            macro_analysis),
        Event.resolved .synthesis final_report])

/-- Outcome of the POST /analyze-async endpoint. -/
inductive AsyncResult where
  | httpError (statusCode : Nat) (detail : String)
  | accepted (status task_id fund_name message : String)
deriving DecidableEq

/-- The POST /analyze-async endpoint `analyze_mutual_fund_async` (main.py
lines 328-349): strip the name, reject only the empty name with a 400,
otherwise return an accepted payload.  `epochSeconds` models
int(datetime.now().timestamp()).  The second component carries the
(fund_name, task_id) arguments handed to background_tasks.add_task, or
`none` when no background work is scheduled. -/
def analyze_mutual_fund_async (mutual_fund_name : String)
    (epochSeconds : Int) : AsyncResult × Option (String × String) :=
  let fund_name := pyStrip mutual_fund_name
  if fund_name = "" then
    (.httpError 400 "Mutual fund name is required", none)
  else
    let task_id := "task_" ++ toString epochSeconds
    (.accepted "accepted" task_id fund_name
       "Analysis started. Results will be processed in the background.",
     some (fund_name, task_id))

/-- Unfolding of POST /analyze on a name that passes validation. -/
theorem analyze_valid_eq (sched : List GatherLabel) (oracle : Oracle)
    (name : String) (now : Datetime) (hv : 3 ≤ (pyStrip name).length) :
    analyze_mutual_fund sched oracle name now =
      (EndpointResult.success "success" (pyStrip name)
        [("fund_analysis", MutualFundAnalyzer.analyze_mutual_fund oracle (pyStrip name)),
         ("sentiment_analysis", MutualFundAnalyzer.analyze_sentiment oracle (pyStrip name)),
         ("macroeconomic_analysis", MutualFundAnalyzer.analyze_macroeconomic oracle (pyStrip name)),
         ("final_report", MutualFundAnalyzer.compile_final_report oracle (pyStrip name)
            (MutualFundAnalyzer.analyze_mutual_fund oracle (pyStrip name))
            (MutualFundAnalyzer.analyze_sentiment oracle (pyStrip name))
            (MutualFundAnalyzer.analyze_macroeconomic oracle (pyStrip name)))]
        now.isoformat,
       sched.map (gather_event oracle (pyStrip name)) ++
         [Event.started Slot.synthesis
            (compile_prompt (pyStrip name)
              (MutualFundAnalyzer.analyze_mutual_fund oracle (pyStrip name))
              (MutualFundAnalyzer.analyze_sentiment oracle (pyStrip name))
              (MutualFundAnalyzer.analyze_macroeconomic oracle (pyStrip name))),
          Event.resolved Slot.synthesis
            (MutualFundAnalyzer.compile_final_report oracle (pyStrip name)
              (MutualFundAnalyzer.analyze_mutual_fund oracle (pyStrip name))
              (MutualFundAnalyzer.analyze_sentiment oracle (pyStrip name))
              (MutualFundAnalyzer.analyze_macroeconomic oracle (pyStrip name)))]) := by
  have h1 : ¬ (pyStrip name = "") := by
    intro h
    rw [h] at hv
    simp at hv
  have h2 : ¬ ((pyStrip name).length < 3) := by omega
  simp [analyze_mutual_fund, h1, h2]

/-- C1: for every input whose stripped name passes validation, POST
/analyze returns a success result in which all four text fields are
present as strings, for every behaviour of the remote calls: an
individual remote-call failure never surfaces as an error. -/
theorem C1_always_populated (sched : List GatherLabel) (oracle : Oracle)
    (name : String) (now : Datetime) (hv : 3 ≤ (pyStrip name).length) :
    ∃ fa sa ma fr,
      (analyze_mutual_fund sched oracle name now).1 =
        EndpointResult.success "success" (pyStrip name)
          [("fund_analysis", fa), ("sentiment_analysis", sa),
           ("macroeconomic_analysis", ma), ("final_report", fr)]
          now.isoformat := by
  exact ⟨_, _, _, _, congrArg Prod.fst (analyze_valid_eq sched oracle name now hv)⟩

/-- Witness for C1 with a valid name and all remote calls timing out. -/
theorem C1_always_populated_witness :
    3 ≤ (pyStrip "HDFC Top 100 Fund").length ∧
    ∃ fa sa ma fr,
      (analyze_mutual_fund [] (fun _ => ApiOutcome.timeout) "HDFC Top 100 Fund"
          ⟨2025, 1, 2, 3, 4, 5, 6⟩).1 =
        EndpointResult.success "success" (pyStrip "HDFC Top 100 Fund")
          [("fund_analysis", fa), ("sentiment_analysis", sa),
           ("macroeconomic_analysis", ma), ("final_report", fr)]
          (Datetime.isoformat ⟨2025, 1, 2, 3, 4, 5, 6⟩) :=
  ⟨by decide, C1_always_populated [] (fun _ => ApiOutcome.timeout)
    "HDFC Top 100 Fund" ⟨2025, 1, 2, 3, 4, 5, 6⟩ (by decide)⟩

/-- C2: every input whose stripped form is empty or shorter than 3
characters is rejected with a 400 and no remote call is made; the empty
name gets the name-required message, a short non-empty name (such as a
2-character one) gets the too-short message. -/
theorem C2_validation_rejects (sched : List GatherLabel) (oracle : Oracle)
    (name : String) (now : Datetime)
    (hv : pyStrip name = "" ∨ (pyStrip name).length < 3) :
    ∃ detail,
      analyze_mutual_fund sched oracle name now =
        (EndpointResult.httpError 400 detail, []) ∧
      (pyStrip name = "" → detail = "Mutual fund name is required") ∧
      (pyStrip name ≠ "" →
        detail = "Fund name too short. Please provide the complete fund name.") := by
  by_cases h : pyStrip name = ""
  · exact ⟨"Mutual fund name is required",
      by simp [analyze_mutual_fund, h], fun _ => rfl, fun hn => absurd h hn⟩
  · have hlen : (pyStrip name).length < 3 := by
      rcases hv with h2 | h2
      · exact absurd h2 h
      · exact h2
    exact ⟨"Fund name too short. Please provide the complete fund name.",
      by simp [analyze_mutual_fund, h, hlen], fun h2 => absurd h2 h, fun _ => rfl⟩

/-- Witness for C2 at the 2-character input "HD". -/
theorem C2_validation_rejects_witness :
    (pyStrip "HD" = "" ∨ (pyStrip "HD").length < 3) ∧
    ∃ detail,
      analyze_mutual_fund [] (fun _ => ApiOutcome.timeout) "HD"
          ⟨2025, 1, 2, 3, 4, 5, 6⟩ =
        (EndpointResult.httpError 400 detail, []) ∧
      (pyStrip "HD" = "" → detail = "Mutual fund name is required") ∧
      (pyStrip "HD" ≠ "" →
        detail = "Fund name too short. Please provide the complete fund name.") :=
  ⟨by decide, C2_validation_rejects [] (fun _ => ApiOutcome.timeout) "HD"
    ⟨2025, 1, 2, 3, 4, 5, 6⟩ (by decide)⟩

/-- C3: whenever the analyze operation reaches the synthesis step, the
synthesis prompt contains, as literal substrings, the stripped instrument
name and the full text of all three prior results (real analyses or
substituted placeholders). -/
theorem C3_synthesis_prompt_contains (sched : List GatherLabel)
    (oracle : Oracle) (name : String) (now : Datetime)
    (hv : 3 ≤ (pyStrip name).length) :
    ∃ fa sa ma p,
      fa = MutualFundAnalyzer.analyze_mutual_fund oracle (pyStrip name) ∧
      sa = MutualFundAnalyzer.analyze_sentiment oracle (pyStrip name) ∧
      ma = MutualFundAnalyzer.analyze_macroeconomic oracle (pyStrip name) ∧
      p = compile_prompt (pyStrip name) fa sa ma ∧
      Event.started Slot.synthesis p ∈
        (analyze_mutual_fund sched oracle name now).2 ∧
      occursIn (pyStrip name) p ∧ occursIn fa p ∧ occursIn sa p ∧
      occursIn ma p := by
  refine ⟨_, _, _, _, rfl, rfl, rfl, rfl, ?_, ?_, ?_, ?_, ?_⟩
  · rw [analyze_valid_eq sched oracle name now hv]
    simp
  · exact ⟨compile_prompt_p1,
      compile_prompt_p2 ++ MutualFundAnalyzer.analyze_mutual_fund oracle (pyStrip name) ++
        compile_prompt_p3 ++ MutualFundAnalyzer.analyze_sentiment oracle (pyStrip name) ++
        compile_prompt_p4 ++ MutualFundAnalyzer.analyze_macroeconomic oracle (pyStrip name) ++
        compile_prompt_p5 ++ pyStrip name ++ compile_prompt_p6,
      by simp [compile_prompt, String.append_assoc]⟩
  · exact ⟨compile_prompt_p1 ++ pyStrip name ++ compile_prompt_p2,
      compile_prompt_p3 ++ MutualFundAnalyzer.analyze_sentiment oracle (pyStrip name) ++
        compile_prompt_p4 ++ MutualFundAnalyzer.analyze_macroeconomic oracle (pyStrip name) ++
        compile_prompt_p5 ++ pyStrip name ++ compile_prompt_p6,
      by simp [compile_prompt, String.append_assoc]⟩
  · exact ⟨compile_prompt_p1 ++ pyStrip name ++ compile_prompt_p2 ++
        MutualFundAnalyzer.analyze_mutual_fund oracle (pyStrip name) ++ compile_prompt_p3,
      compile_prompt_p4 ++ MutualFundAnalyzer.analyze_macroeconomic oracle (pyStrip name) ++
        compile_prompt_p5 ++ pyStrip name ++ compile_prompt_p6,
      by simp [compile_prompt, String.append_assoc]⟩
  · exact ⟨compile_prompt_p1 ++ pyStrip name ++ compile_prompt_p2 ++
        MutualFundAnalyzer.analyze_mutual_fund oracle (pyStrip name) ++ compile_prompt_p3 ++
        MutualFundAnalyzer.analyze_sentiment oracle (pyStrip name) ++ compile_prompt_p4,
      compile_prompt_p5 ++ pyStrip name ++ compile_prompt_p6,
      by simp [compile_prompt, String.append_assoc]⟩

/-- Witness for C3 at a valid name with all remote calls failing. -/
theorem C3_synthesis_prompt_contains_witness :
    3 ≤ (pyStrip "HDFC Top 100 Fund").length ∧
    ∃ fa sa ma p,
      fa = MutualFundAnalyzer.analyze_mutual_fund (fun _ => ApiOutcome.transportError)
        (pyStrip "HDFC Top 100 Fund") ∧
      sa = MutualFundAnalyzer.analyze_sentiment (fun _ => ApiOutcome.transportError)
        (pyStrip "HDFC Top 100 Fund") ∧
      ma = MutualFundAnalyzer.analyze_macroeconomic (fun _ => ApiOutcome.transportError)
        (pyStrip "HDFC Top 100 Fund") ∧
      p = compile_prompt (pyStrip "HDFC Top 100 Fund") fa sa ma ∧
      Event.started Slot.synthesis p ∈
        (analyze_mutual_fund [] (fun _ => ApiOutcome.transportError)
          "HDFC Top 100 Fund" ⟨2025, 1, 2, 3, 4, 5, 6⟩).2 ∧
      occursIn (pyStrip "HDFC Top 100 Fund") p ∧ occursIn fa p ∧
      occursIn sa p ∧ occursIn ma p :=
  ⟨by decide, C3_synthesis_prompt_contains [] (fun _ => ApiOutcome.transportError)
    "HDFC Top 100 Fund" ⟨2025, 1, 2, 3, 4, 5, 6⟩ (by decide)⟩

/-- C4: in every run on a valid name, the trace ends with the synthesis
call, which starts only after the fan-out part of the trace; every
resolution of the three concurrent calls lies in that earlier part when
the schedule resolves them all (as asyncio.gather guarantees), no
synthesis start occurs earlier, and the synthesis call is never
skipped. -/
theorem C4_synthesis_after_join (sched : List GatherLabel) (oracle : Oracle)
    (name : String) (now : Datetime) (hv : 3 ≤ (pyStrip name).length)
    (hres : coversResolutions sched) :
    ∃ g p r,
      (analyze_mutual_fund sched oracle name now).2 =
        g ++ [Event.started Slot.synthesis p, Event.resolved Slot.synthesis r] ∧
      (∀ q, Event.started Slot.synthesis q ∉ g) ∧
      (∀ i : Fin 3,
        Event.resolved (agentSlot i) (agent_result oracle (pyStrip name) i) ∈ g) := by
  refine ⟨sched.map (gather_event oracle (pyStrip name)), _, _,
    congrArg Prod.snd (analyze_valid_eq sched oracle name now hv), ?_, ?_⟩
  · intro q hq
    rcases List.mem_map.mp hq with ⟨l, hl, he⟩
    have hslot : ∀ j : Fin 3, agentSlot j ≠ Slot.synthesis := by decide
    cases l with
    | taskStarted i =>
        simp only [gather_event, Event.started.injEq] at he
        exact absurd he.1 (hslot i)
    | taskResolved i =>
        simp [gather_event] at he
  · intro i
    have := List.mem_map_of_mem (gather_event oracle (pyStrip name)) (hres i)
    simpa [gather_event] using this

/-- Witness for C4 on a schedule that starts and resolves all tasks. -/
theorem C4_synthesis_after_join_witness :
    3 ≤ (pyStrip "HDFC Top 100 Fund").length ∧
    coversResolutions
      [GatherLabel.taskStarted 0, GatherLabel.taskStarted 1,
       GatherLabel.taskStarted 2, GatherLabel.taskResolved 1,
       GatherLabel.taskResolved 0, GatherLabel.taskResolved 2] ∧
    ∃ g p r,
      (analyze_mutual_fund
          [GatherLabel.taskStarted 0, GatherLabel.taskStarted 1,
           GatherLabel.taskStarted 2, GatherLabel.taskResolved 1,
           GatherLabel.taskResolved 0, GatherLabel.taskResolved 2]
          (fun _ => ApiOutcome.timeout) "HDFC Top 100 Fund"
          ⟨2025, 1, 2, 3, 4, 5, 6⟩).2 =
        g ++ [Event.started Slot.synthesis p, Event.resolved Slot.synthesis r] ∧
      (∀ q, Event.started Slot.synthesis q ∉ g) ∧
      (∀ i : Fin 3,
        Event.resolved (agentSlot i)
          (agent_result (fun _ => ApiOutcome.timeout)
            (pyStrip "HDFC Top 100 Fund") i) ∈ g) :=
  ⟨by decide, by decide,
   C4_synthesis_after_join
    [GatherLabel.taskStarted 0, GatherLabel.taskStarted 1,
     GatherLabel.taskStarted 2, GatherLabel.taskResolved 1,
     GatherLabel.taskResolved 0, GatherLabel.taskResolved 2]
    (fun _ => ApiOutcome.timeout) "HDFC Top 100 Fund"
    ⟨2025, 1, 2, 3, 4, 5, 6⟩ (by decide) (by decide)⟩

/-- C8: on every valid input, the POST /analyze response carries status
"success", the stripped submitted name as fund_name, an analysis object
whose keys are exactly the four text fields, and a timestamp that parses
as ISO-8601. -/
theorem C8_success_shape (sched : List GatherLabel) (oracle : Oracle)
    (name : String) (now : Datetime) (hv : 3 ≤ (pyStrip name).length)
    (_hd : now.valid) :
    ∃ fa sa ma fr,
      (analyze_mutual_fund sched oracle name now).1 =
        EndpointResult.success "success" (pyStrip name)
          [("fund_analysis", fa), ("sentiment_analysis", sa),
           ("macroeconomic_analysis", ma), ("final_report", fr)]
          now.isoformat ∧
      [("fund_analysis", fa), ("sentiment_analysis", sa),
       ("macroeconomic_analysis", ma), ("final_report", fr)].map Prod.fst =
        ["fund_analysis", "sentiment_analysis", "macroeconomic_analysis",
         "final_report"] ∧
      isIso8601 now.isoformat = true := by
  refine ⟨_, _, _, _,
    congrArg Prod.fst (analyze_valid_eq sched oracle name now hv),
    by simp, isoformat_isIso8601 now⟩

/-- Witness for C8 at a valid name and a valid clock reading. -/
theorem C8_success_shape_witness :
    3 ≤ (pyStrip "HDFC Top 100 Fund").length ∧
    Datetime.valid ⟨2025, 1, 2, 3, 4, 5, 6⟩ ∧
    ∃ fa sa ma fr,
      (analyze_mutual_fund [] (fun _ => ApiOutcome.transportError)
          "HDFC Top 100 Fund" ⟨2025, 1, 2, 3, 4, 5, 6⟩).1 =
        EndpointResult.success "success" (pyStrip "HDFC Top 100 Fund")
          [("fund_analysis", fa), ("sentiment_analysis", sa),
           ("macroeconomic_analysis", ma), ("final_report", fr)]
          (Datetime.isoformat ⟨2025, 1, 2, 3, 4, 5, 6⟩) ∧
      [("fund_analysis", fa), ("sentiment_analysis", sa),
       ("macroeconomic_analysis", ma), ("final_report", fr)].map Prod.fst =
        ["fund_analysis", "sentiment_analysis", "macroeconomic_analysis",
         "final_report"] ∧
      isIso8601 (Datetime.isoformat ⟨2025, 1, 2, 3, 4, 5, 6⟩) = true :=
  ⟨by decide, by decide, C8_success_shape [] (fun _ => ApiOutcome.transportError)
    "HDFC Top 100 Fund" ⟨2025, 1, 2, 3, 4, 5, 6⟩ (by decide) (by decide)⟩

/-- C9: POST /analyze-async rejects with a 400 exactly when the stripped
name is empty; any non-empty stripped name (including lengths 1 and 2) is
accepted with a task id and the background work is scheduled. -/
theorem C9_async_validation (name : String) (epochSeconds : Int) :
    ((∃ detail, (analyze_mutual_fund_async name epochSeconds).1 =
        AsyncResult.httpError 400 detail) ↔ pyStrip name = "") ∧
    (pyStrip name ≠ "" →
      analyze_mutual_fund_async name epochSeconds =
        (AsyncResult.accepted "accepted" ("task_" ++ toString epochSeconds)
          (pyStrip name)
          "Analysis started. Results will be processed in the background.",
         some (pyStrip name, "task_" ++ toString epochSeconds))) := by
  constructor
  · constructor
    · rintro ⟨detail, hd⟩
      by_cases h : pyStrip name = ""
      · exact h
      · simp [analyze_mutual_fund_async, h] at hd
    · intro h
      exact ⟨"Mutual fund name is required",
        by simp [analyze_mutual_fund_async, h]⟩
  · intro h
    simp [analyze_mutual_fund_async, h]

/-- Witness for C9 at the 2-character name "HD". -/
theorem C9_async_validation_witness :
    pyStrip "HD" ≠ "" ∧
    analyze_mutual_fund_async "HD" 1700000000 =
      (AsyncResult.accepted "accepted" ("task_" ++ toString (1700000000 : Int))
        (pyStrip "HD")
        "Analysis started. Results will be processed in the background.",
       some (pyStrip "HD", "task_" ++ toString (1700000000 : Int))) :=
  ⟨by decide, (C9_async_validation "HD" 1700000000).2 (by decide)⟩

end Crewmf
